import Mathlib

/-!
Shallow embedding of the HR dashboard core (`src/app.py`).

The program loads an employee roster (one row per employee, with department,
hire date and exit date columns coerced to calendar dates, unparseable values
becoming absent), then computes:
  * `mask_current` / `df_current` / `total_count` — the Inclusive-mode active
    set and headcount at a reference date (lines 72–81);
  * `avg_tenure` — the mean of `(target - hire).days / 365` over the active
    set, rounded to one decimal, `0` when the set is empty (lines 84–89);
  * `exit_count` — year-to-date exits over the full roster (lines 92–96);
  * `trend_data` — Strict-mode headcounts at month-end reference points from
    2023-01-31 up to the reference date (lines 102–127).

Dates are embedded as (year, month, day) triples compared lexicographically,
which agrees with chronological comparison of pandas Timestamps on valid
dates; day arithmetic uses the proleptic-Gregorian ordinal (`toOrd`), matching
`(a - b).dt.days`. Rational numbers stand in for Python floats, and
`pyRound1` models the Python builtin `round(x, 1)` (round-half-even at one decimal).
-/

/-- A calendar date, as carried by a pandas Timestamp (midnight times). -/
structure Date where
  year : Nat
  month : Nat
  day : Nat
deriving DecidableEq

/-- Gregorian leap-year test. -/
def isLeap (y : Nat) : Bool :=
  y % 4 == 0 && (y % 100 != 0 || y % 400 == 0)

/-- Number of days in a month of a given year. -/
def daysInMonth (y m : Nat) : Nat :=
  if m = 2 then (if isLeap y then 29 else 28)
  else if m = 4 ∨ m = 6 ∨ m = 9 ∨ m = 11 then 30
  else 31

/-- A well-formed calendar date (what a pandas Timestamp always is). -/
def Date.Valid (d : Date) : Prop :=
  1 ≤ d.year ∧ 1 ≤ d.month ∧ d.month ≤ 12 ∧ 1 ≤ d.day ∧ d.day ≤ daysInMonth d.year d.month

instance (d : Date) : Decidable d.Valid := by
  unfold Date.Valid; infer_instance

/-- Chronological `≤` on dates (lexicographic on year, month, day; agrees
with pandas Timestamp comparison on valid dates). -/
def dleb (a b : Date) : Bool :=
  decide (a.year < b.year) ||
    (decide (a.year = b.year) &&
      (decide (a.month < b.month) ||
        (decide (a.month = b.month) && decide (a.day ≤ b.day))))

/-- Chronological `<` on dates. -/
def dltb (a b : Date) : Bool :=
  decide (a.year < b.year) ||
    (decide (a.year = b.year) &&
      (decide (a.month < b.month) ||
        (decide (a.month = b.month) && decide (a.day < b.day))))

theorem dleb_iff (a b : Date) : dleb a b = true ↔
    (a.year < b.year ∨ (a.year = b.year ∧
      (a.month < b.month ∨ (a.month = b.month ∧ a.day ≤ b.day)))) := by
  simp [dleb]

theorem dltb_iff (a b : Date) : dltb a b = true ↔
    (a.year < b.year ∨ (a.year = b.year ∧
      (a.month < b.month ∨ (a.month = b.month ∧ a.day < b.day)))) := by
  simp [dltb]

theorem dleb_refl (a : Date) : dleb a a = true := by
  simp [dleb]

theorem dltb_irrefl (a : Date) : dltb a a = false := by
  simp [dltb]

/-- Days already elapsed in year `y` before month `m` begins. -/
def daysBeforeMonth (y m : Nat) : Nat :=
  ((List.range (m - 1)).map (fun i => daysInMonth y (i + 1))).sum

/-- Proleptic-Gregorian ordinal of a date (0001-01-01 ↦ 1), as in the Python
function `date.toordinal`; differences of ordinals give `(a - b).dt.days`. -/
def toOrd (d : Date) : Nat :=
  365 * (d.year - 1) + (d.year - 1) / 4 - (d.year - 1) / 100 + (d.year - 1) / 400
    + daysBeforeMonth d.year d.month + d.day

/-- One employee row of the roster, after the column normalization of the loader
and date coercion (`load_data`): unparseable dates have become absent. -/
structure Row where
  name : String
  dept : String
  title : String
  gender : String
  hireDate : Option Date
  exitDate : Option Date
deriving DecidableEq

/-- The sentinel department-filter value that disables filtering
("전체" = "ALL" in the selectbox of the source). -/
def allDepts : String := "전체"

/-- Department dropdown options: the sentinel plus the distinct department
values of the roster (`dept_list`, line 65). -/
def dept_list (roster : List Row) : List String :=
  allDepts :: (roster.map (fun r => r.dept)).dedup

/-- Inclusive-mode membership mask (lines 72–73):
`입사일 <= target  ∧  (퇴사일 is NaT ∨ 퇴사일 >= target)`.
A NaT (absent) date fails every comparison, as in pandas. -/
def mask_current (target : Date) (r : Row) : Bool :=
  (match r.hireDate with
    | none => false
    | some h => dleb h target) &&
  (match r.exitDate with
    | none => true
    | some e => dleb target e)

/-- The Inclusive-mode active set after the department filter
(lines 74–78). -/
def df_current (roster : List Row) (target : Date) (sel : String) : List Row :=
  if sel == allDepts then roster.filter (mask_current target)
  else (roster.filter (mask_current target)).filter (fun r => r.dept == sel)

/-- KPI 1, the headcount (`total_count`, line 81). -/
def total_count (roster : List Row) (target : Date) (sel : String) : Nat :=
  (df_current roster target sel).length

/-- Tenure in years of one active row: `(target - 입사일).days / 365`
(line 86).  Rows of `df_current` always carry a hire date; the `none`
branch is unreachable there. -/
def rowTenure (target : Date) (r : Row) : ℚ :=
  match r.hireDate with
  | none => 0
  | some h => ((toOrd target : Int) - (toOrd h : Int) : ℚ) / 365

/-- Arithmetic mean of a list of rationals (`Series.mean`). -/
def meanQ (l : List ℚ) : ℚ := l.sum / l.length

/-- The Python builtin `round(q, 1)`: round to the nearest multiple of 1/10,
ties to the even digit (banker rounding), modelled over ℚ. -/
def pyRound1 (q : ℚ) : ℚ :=
  ((if q * 10 - ⌊q * 10⌋ < 1/2 then ⌊q * 10⌋
    else if 1/2 < q * 10 - ⌊q * 10⌋ then ⌊q * 10⌋ + 1
    else if ⌊q * 10⌋ % 2 = 0 then ⌊q * 10⌋ else ⌊q * 10⌋ + 1 : Int) : ℚ) / 10

/-- KPI 2, average tenure in years (lines 84–89): the rounded mean of the
tenure column over the active set, `0` when the set is empty. -/
def avg_tenure (roster : List Row) (target : Date) (sel : String) : ℚ :=
  if (df_current roster target sel) = [] then 0
  else pyRound1 (meanQ ((df_current roster target sel).map (rowTenure target)))

/-- January 1 of the year of the reference date (`start_of_year`, line 92). -/
def start_of_year (target : Date) : Date := ⟨target.year, 1, 1⟩

/-- Year-to-date exit mask over the full roster (line 93):
`퇴사일 >= start_of_year ∧ 퇴사일 <= target`; NaT fails both. -/
def mask_exit (target : Date) (r : Row) : Bool :=
  match r.exitDate with
  | none => false
  | some e => dleb (start_of_year target) e && dleb e target

/-- KPI 3, year-to-date exits (lines 92–96), computed on the full roster,
with the department condition conjoined when a department is selected. -/
def exit_count (roster : List Row) (target : Date) (sel : String) : Nat :=
  if sel == allDepts then (roster.filter (mask_exit target)).length
  else (roster.filter (fun r => mask_exit target r && r.dept == sel)).length

/-- Strict-mode membership mask used at month-end trend points
(lines 114–115): `입사일 <= d ∧ (퇴사일 is NaT ∨ 퇴사일 > d)`. -/
def mask_month (d : Date) (r : Row) : Bool :=
  (match r.hireDate with
    | none => false
    | some h => dleb h d) &&
  (match r.exitDate with
    | none => true
    | some e => dltb d e)

/-- Zero-based month index used to enumerate month-end anchor points. -/
def monthIdx (d : Date) : Nat := d.year * 12 + (d.month - 1)

/-- The month-end date of the month with zero-based index `k`. -/
def monthEndOfIdx (k : Nat) : Date :=
  ⟨k / 12, k % 12 + 1, daysInMonth (k / 12) (k % 12 + 1)⟩

/-- Embedding of `pd.date_range` with month-end frequency: every month-end
anchor point lying inside the closed interval `[s, e]`, in chronological order. -/
def date_range (s e : Date) : List Date :=
  ((List.range (monthIdx e + 1 - monthIdx s)).map
      (fun i => monthEndOfIdx (monthIdx s + i))).filter
    (fun d => dleb s d && dleb d e)

/-- The configured series start, `2023-01-31` (line 103). -/
def start_trend_date : Date := ⟨2023, 1, 31⟩

/-- Strict-mode headcount at one trend reference point `d`, with the
department filter applied afterwards (lines 114–124). -/
def trendCount (roster : List Row) (sel : String) (d : Date) : Nat :=
  (if sel == allDepts then roster.filter (mask_month d)
   else (roster.filter (mask_month d)).filter (fun r => r.dept == sel)).length

/-- The monthly trend series (lines 102–127): one `(reference date, count)`
point per month-end in the sampled range; the displayed label is the
year-month of the date of the point. -/
def trend_data (roster : List Row) (target : Date) (sel : String) :
    List (Date × Nat) :=
  (if dltb target start_trend_date then date_range target target
   else date_range start_trend_date target).map
    (fun d => (d, trendCount roster sel d))

/-- The calendar day immediately before `d` (for the hire-date boundary
property of §8 of the spec). -/
def predDay (d : Date) : Date :=
  if 2 ≤ d.day then ⟨d.year, d.month, d.day - 1⟩
  else if 2 ≤ d.month then ⟨d.year, d.month - 1, daysInMonth d.year (d.month - 1)⟩
  else ⟨d.year - 1, 12, 31⟩

/-- Restatement of `ytdExits` following the words of the spec (§4.4): the
number of records of the full roster whose exit date lies in the closed
interval from January 1 of the year of the reference date to the reference
date, and which pass the department filter. -/
def ytdExitsSpec (roster : List Row) (target : Date) (sel : String) : Nat :=
  (roster.filter (fun r =>
    (match r.exitDate with
      | none => false
      | some e => dleb ⟨target.year, 1, 1⟩ e && dleb e target) &&
    (sel == allDepts || r.dept == sel))).length

/-- The exact (unrounded) arithmetic mean of `(referenceDate - hireDate)/365`
over the Inclusive-mode active set, following the words of the spec (§4.4). -/
def avgTenureSpecMean (roster : List Row) (target : Date) (sel : String) : ℚ :=
  ((df_current roster target sel).map
      (fun r => ((toOrd target : ℚ) - (toOrd (r.hireDate.getD target) : ℚ)) / 365)).sum
    / (df_current roster target sel).length

/-- One in-memory table during a render: its rows and the optional derived
tenure column (`근속년수`) that line 86 assigns. -/
structure Frame where
  rows : List Row
  tenureCol : Option (List ℚ)
deriving DecidableEq

/-- The mutable state of one render pass: the loaded master roster, the
working copy `df_current`, and the computed outputs. -/
structure DashState where
  master : Frame
  current : Frame
  totalCount : Nat
  avgTenure : ℚ
  exitCount : Nat
  trend : List (Date × Nat)

/-- State at the start of a render, right after `load_data` (line 51). -/
def initState (roster : List Row) : DashState :=
  ⟨⟨roster, none⟩, ⟨[], none⟩, 0, 0, 0, []⟩

/-- Lines 72–78: boolean indexing plus `.copy()` allocate a fresh frame for
the filtered active set; the master frame is read, not written. -/
def stepFilterCurrent (target : Date) (sel : String) (s : DashState) : DashState :=
  { s with current := ⟨df_current s.master.rows target sel, none⟩ }

/-- Line 81: headcount of the working copy. -/
def stepHeadcount (s : DashState) : DashState :=
  { s with totalCount := s.current.rows.length }

/-- Lines 84–89: the tenure column is written into the working copy only
(the source copied `df_current` before this in-place assignment). -/
def stepTenure (target : Date) (s : DashState) : DashState :=
  if s.current.rows = [] then { s with avgTenure := 0 }
  else
    { s with
      current := ⟨s.current.rows, some (s.current.rows.map (rowTenure target))⟩,
      avgTenure := pyRound1 (meanQ (s.current.rows.map (rowTenure target))) }

/-- Lines 92–96: year-to-date exits, read from the master frame. -/
def stepExits (target : Date) (sel : String) (s : DashState) : DashState :=
  { s with exitCount := exit_count s.master.rows target sel }

/-- Lines 102–127: the trend series, read from the master frame. -/
def stepTrend (target : Date) (sel : String) (s : DashState) : DashState :=
  { s with trend := trend_data s.master.rows target sel }

/-- One full render pass over the loaded roster (lines 72–127 in order). -/
def renderPipeline (target : Date) (sel : String) (roster : List Row) : DashState :=
  stepTrend target sel
    (stepExits target sel
      (stepTenure target
        (stepHeadcount
          (stepFilterCurrent target sel (initState roster)))))

/- ------------------------------------------------------------------ -/
/- Helper lemmas -/
/- ------------------------------------------------------------------ -/

theorem df_current_nil (target : Date) (sel : String) :
    df_current [] target sel = [] := by
  unfold df_current
  split <;> simp

theorem trendCount_nil (sel : String) (d : Date) :
    trendCount [] sel d = 0 := by
  unfold trendCount
  split <;> simp

theorem df_current_cons_of_mask_false {r : Row} {target : Date}
    (hm : mask_current target r = false) (roster : List Row) (sel : String) :
    df_current (r :: roster) target sel = df_current roster target sel := by
  unfold df_current
  rw [List.filter_cons_of_neg (by simp [hm])]

theorem mask_current_of_absent_hire {r : Row} (hn : r.hireDate = none)
    (target : Date) : mask_current target r = false := by
  unfold mask_current
  rw [hn]
  simp

theorem mask_month_of_absent_hire {r : Row} (hn : r.hireDate = none)
    (d : Date) : mask_month d r = false := by
  unfold mask_month
  rw [hn]
  simp

/- ------------------------------------------------------------------ -/
/- Claims -/
/- ------------------------------------------------------------------ -/

/-- C1. Boundary asymmetry of the membership predicate: for every record with
a defined exit date, the Strict-mode mask evaluated at a reference date equal
to the exit date is false, while the Inclusive-mode mask at that same date is
true whenever the hire date is defined and is at most the reference date. -/
theorem claim1_boundary_asymmetry (r : Row) (e : Date) (he : r.exitDate = some e) :
    mask_month e r = false ∧
    (∀ h, r.hireDate = some h → dleb h e = true → mask_current e r = true) := by
  constructor
  · unfold mask_month
    rw [he]
    simp [dltb_irrefl]
  · intro h hh hle
    unfold mask_current
    rw [he, hh]
    simp [hle, dleb_refl]

/-- Witness for C1 at a concrete record hired 2024-01-01, exiting 2024-06-15. -/
theorem claim1_boundary_asymmetry_witness :
    mask_month ⟨2024, 6, 15⟩
        (⟨"w", "A", "T", "M", some ⟨2024, 1, 1⟩, some ⟨2024, 6, 15⟩⟩ : Row) = false ∧
    mask_current ⟨2024, 6, 15⟩
        (⟨"w", "A", "T", "M", some ⟨2024, 1, 1⟩, some ⟨2024, 6, 15⟩⟩ : Row) = true :=
  ⟨(claim1_boundary_asymmetry _ _ rfl).1,
   (claim1_boundary_asymmetry _ _ rfl).2 ⟨2024, 1, 1⟩ rfl (by decide)⟩

/-- C3, counterexample: a record with an absent hire date and an exit date of
2024-03-01 is nonetheless counted by the year-to-date exit computation at
reference date 2024-06-15 — it does contribute to `ytdExits`, so it is not
excluded from every date-based computation. -/
theorem claim3_counterexample :
    (⟨"c", "A", "T", "M", none, some ⟨2024, 3, 1⟩⟩ : Row).hireDate = none ∧
    exit_count [⟨"c", "A", "T", "M", none, some ⟨2024, 3, 1⟩⟩] ⟨2024, 6, 15⟩ allDepts ≠
      exit_count [] ⟨2024, 6, 15⟩ allDepts := by
  decide

/-- C3, amended: a record with an absent hire date satisfies neither
membership mask at any reference date, hence contributes nothing to the
Inclusive-mode headcount, to the average-tenure set, or to any Strict-mode
trend count (the year-to-date exit count, which never consults the hire
date, is excluded from the amended statement). -/
theorem claim3_amended_absent_hire (r : Row) (hn : r.hireDate = none) :
    (∀ target, mask_current target r = false) ∧
    (∀ d, mask_month d r = false) ∧
    (∀ roster target sel, total_count (r :: roster) target sel = total_count roster target sel) ∧
    (∀ roster target sel, avg_tenure (r :: roster) target sel = avg_tenure roster target sel) ∧
    (∀ roster sel d, trendCount (r :: roster) sel d = trendCount roster sel d) := by
  refine ⟨mask_current_of_absent_hire hn, mask_month_of_absent_hire hn, ?_, ?_, ?_⟩
  · intro roster target sel
    unfold total_count
    rw [df_current_cons_of_mask_false (mask_current_of_absent_hire hn target)]
  · intro roster target sel
    unfold avg_tenure
    rw [df_current_cons_of_mask_false (mask_current_of_absent_hire hn target)]
  · intro roster sel d
    unfold trendCount
    rw [List.filter_cons_of_neg (by simp [mask_month_of_absent_hire hn d])]

/-- Witness for the amended C3 at a concrete absent-hire record. -/
theorem claim3_amended_absent_hire_witness :
    total_count [⟨"c", "B", "T", "M", none, some ⟨2024, 3, 1⟩⟩] ⟨2024, 6, 15⟩ allDepts =
      total_count [] ⟨2024, 6, 15⟩ allDepts :=
  (claim3_amended_absent_hire _ rfl).2.2.1 [] ⟨2024, 6, 15⟩ allDepts

/-- C8. Empty-roster totality: on an empty roster every computation yields its
zero value — headcount 0, average tenure 0, year-to-date exits 0, and every
point of the trend series has count 0 — for any reference date and filter
(all the embedded computations are total functions, so no error state
exists). -/
theorem claim8_empty_roster (target : Date) (sel : String) :
    total_count [] target sel = 0 ∧ avg_tenure [] target sel = 0 ∧
    exit_count [] target sel = 0 ∧
    ∀ p ∈ trend_data [] target sel, p.2 = 0 := by
  refine ⟨?_, ?_, ?_, ?_⟩
  · simp [total_count, df_current_nil]
  · simp [avg_tenure, df_current_nil]
  · unfold exit_count
    split <;> simp
  · intro p hp
    unfold trend_data at hp
    rcases List.mem_map.mp hp with ⟨d, _, rfl⟩
    simp [trendCount_nil]

/-- Witness for C8: the January point of the empty-roster trend at reference
date 2023-03-15 has count 0. -/
theorem claim8_empty_roster_witness :
    ((⟨2023, 1, 31⟩, 0) : Date × Nat).2 = 0 :=
  (claim8_empty_roster ⟨2023, 3, 15⟩ allDepts).2.2.2 (⟨2023, 1, 31⟩, 0) (by decide)

/-- C9. Roster immutability: a full render pass (filtering the active set,
headcount, the in-place tenure-column assignment on the working copy,
year-to-date exits, trend series) leaves the master frame exactly as loaded:
same rows, and still no derived tenure column. -/
theorem claim9_master_immutable (roster : List Row) (target : Date) (sel : String) :
    (renderPipeline target sel roster).master = ⟨roster, none⟩ := by
  unfold renderPipeline stepTrend stepExits stepTenure stepHeadcount stepFilterCurrent initState
  split <;> rfl

theorem sum_map_split (ds : List String) (f g : String → Nat) :
    (ds.map (fun d => f d + g d)).sum = (ds.map f).sum + (ds.map g).sum := by
  induction ds with
  | nil => simp
  | cons d ds ih =>
    simp only [List.map_cons, List.sum_cons, ih]
    omega

theorem sum_indicator_zero (ds : List String) (x : String) (hx : x ∉ ds) :
    (ds.map (fun dpt => if x == dpt then 1 else 0)).sum = 0 := by
  induction ds with
  | nil => simp
  | cons d ds ih =>
    have hxd : x ≠ d := fun h => hx (h ▸ List.mem_cons_self d ds)
    simp only [List.map_cons, List.sum_cons]
    rw [if_neg (by simp [hxd]), ih (fun h => hx (List.mem_cons_of_mem _ h))]

theorem sum_indicator_one (ds : List String) (hnd : ds.Nodup) (x : String) (hx : x ∈ ds) :
    (ds.map (fun dpt => if x == dpt then 1 else 0)).sum = 1 := by
  induction ds with
  | nil => cases hx
  | cons d ds ih =>
    simp only [List.map_cons, List.sum_cons]
    rcases List.mem_cons.mp hx with rfl | hmem
    · rw [if_pos (by simp), sum_indicator_zero ds x (List.nodup_cons.mp hnd).1]
    · have hxd : x ≠ d := by
        rintro rfl
        exact (List.nodup_cons.mp hnd).1 hmem
      rw [if_neg (by simp [hxd]), ih (List.nodup_cons.mp hnd).2 hmem]

theorem length_filter_partition (ds : List String) (hnd : ds.Nodup) :
    ∀ l : List Row, (∀ r ∈ l, r.dept ∈ ds) →
      l.length = (ds.map (fun dpt => (l.filter (fun r => r.dept == dpt)).length)).sum := by
  intro l
  induction l with
  | nil =>
    intro
    simp
  | cons r l ih =>
    intro hc
    have hr : r.dept ∈ ds := hc r (List.mem_cons_self r l)
    have hl : ∀ x ∈ l, x.dept ∈ ds := fun x hx => hc x (List.mem_cons_of_mem _ hx)
    have hmap : ds.map (fun dpt => (((r :: l).filter (fun x => x.dept == dpt)).length))
        = ds.map (fun dpt =>
            (if r.dept == dpt then 1 else 0) + (l.filter (fun x => x.dept == dpt)).length) := by
      apply List.map_congr_left
      intro dpt _
      by_cases h : r.dept = dpt
      · rw [List.filter_cons_of_pos (by simp [h])]
        simp [h]
        omega
      · rw [List.filter_cons_of_neg (by simp [h])]
        simp [h]
    rw [hmap,
      sum_map_split ds (fun dpt => if r.dept == dpt then 1 else 0)
        (fun dpt => (l.filter (fun x => x.dept == dpt)).length),
      sum_indicator_one ds hnd r.dept hr, List.length_cons, ih hl]
    omega

/-- C4. The year-to-date exit count equals, for every roster, reference date
and department filter, the number of records of the full roster whose exit
date lies in the closed interval from January 1 of the reference year to the
reference date and which pass the department filter; moreover a record whose
exit date falls in an earlier calendar year never satisfies the exit mask. -/
theorem claim4_ytd_exits (roster : List Row) (target : Date) (sel : String) :
    exit_count roster target sel = ytdExitsSpec roster target sel ∧
    (∀ r : Row, ∀ e : Date, r.exitDate = some e → e.year < target.year →
      mask_exit target r = false) := by
  constructor
  · unfold exit_count ytdExitsSpec
    by_cases hsel : sel = allDepts
    · rw [if_pos (by simp [hsel])]
      congr 1
      apply List.filter_congr
      intro r _
      rw [show (sel == allDepts) = true from by simp [hsel]]
      cases hre : r.exitDate with
      | none => simp [mask_exit, hre]
      | some e => simp [mask_exit, hre, start_of_year]
    · rw [if_neg (by simp [hsel])]
      congr 1
      apply List.filter_congr
      intro r _
      rw [show (sel == allDepts) = false from by simp [hsel]]
      cases hre : r.exitDate with
      | none => simp [mask_exit, hre]
      | some e => simp [mask_exit, hre, start_of_year]
  · intro r e he hy
    unfold mask_exit
    rw [he]
    have hfalse : dleb (start_of_year target) e = false := by
      simp only [start_of_year, dleb, Bool.or_eq_false_iff, Bool.and_eq_false_iff,
        decide_eq_false_iff_not]
      omega
    simp [hfalse]

/-- Witness for C4: a record exiting 2023-05-01 is not counted at reference
date 2024-06-15 (prior-year exit), via the second conjunct of the theorem. -/
theorem claim4_ytd_exits_witness :
    mask_exit ⟨2024, 6, 15⟩
      (⟨"p", "A", "T", "M", some ⟨2020, 1, 1⟩, some ⟨2023, 5, 1⟩⟩ : Row) = false :=
  (claim4_ytd_exits [] ⟨2024, 6, 15⟩ allDepts).2 _ ⟨2023, 5, 1⟩ rfl (by decide)

/-- C5, counterexample: if an actual department is literally the sentinel
value "전체" ("ALL"), filtering by it disables filtering, so the all-
departments headcount (2) differs from the sum over the distinct department
values (2 + 1 = 3). -/
theorem claim5_counterexample :
    ¬ (total_count
        [⟨"a", allDepts, "T", "M", some ⟨2022, 1, 10⟩, none⟩,
         ⟨"b", "A", "T", "F", some ⟨2022, 1, 10⟩, none⟩] ⟨2024, 6, 15⟩ allDepts
      = (((([⟨"a", allDepts, "T", "M", some ⟨2022, 1, 10⟩, none⟩,
            ⟨"b", "A", "T", "F", some ⟨2022, 1, 10⟩, none⟩] : List Row).map
              (fun r => r.dept)).dedup).map
          (fun dpt =>
            total_count
              [⟨"a", allDepts, "T", "M", some ⟨2022, 1, 10⟩, none⟩,
               ⟨"b", "A", "T", "F", some ⟨2022, 1, 10⟩, none⟩] ⟨2024, 6, 15⟩ dpt)).sum) := by
  decide

/-- C5, amended: provided no department value of the roster equals the
sentinel "전체", the all-departments Inclusive headcount equals the sum of
the per-department headcounts over the distinct department values. -/
theorem claim5_amended_partition (roster : List Row) (target : Date)
    (h : allDepts ∉ roster.map (fun r => r.dept)) :
    total_count roster target allDepts =
      (((roster.map (fun r => r.dept)).dedup).map
        (fun dpt => total_count roster target dpt)).sum := by
  have hAll : total_count roster target allDepts
      = (roster.filter (mask_current target)).length := by
    unfold total_count df_current
    rw [if_pos (by simp)]
  have hmap : ((roster.map (fun r => r.dept)).dedup).map
        (fun dpt => total_count roster target dpt)
      = ((roster.map (fun r => r.dept)).dedup).map
          (fun dpt =>
            ((roster.filter (mask_current target)).filter
              (fun r => r.dept == dpt)).length) := by
    apply List.map_congr_left
    intro dpt hdpt
    have hne : dpt ≠ allDepts := by
      intro he
      exact h (he ▸ List.mem_dedup.mp hdpt)
    unfold total_count df_current
    rw [if_neg (by simp [hne])]
  rw [hAll, hmap]
  apply length_filter_partition _ (List.nodup_dedup _)
  intro r hr
  exact List.mem_dedup.mpr (List.mem_map.mpr ⟨r, List.mem_of_mem_filter hr, rfl⟩)

/-- Witness for the amended C5 on a two-record, two-department roster. -/
theorem claim5_amended_partition_witness :
    total_count
        [⟨"a", "A", "T", "M", some ⟨2022, 1, 10⟩, none⟩,
         ⟨"b", "B", "T", "F", some ⟨2023, 3, 1⟩, some ⟨2024, 6, 15⟩⟩]
        ⟨2024, 6, 15⟩ allDepts =
      (((([⟨"a", "A", "T", "M", some ⟨2022, 1, 10⟩, none⟩,
          ⟨"b", "B", "T", "F", some ⟨2023, 3, 1⟩, some ⟨2024, 6, 15⟩⟩] : List Row).map
            (fun r => r.dept)).dedup).map
        (fun dpt =>
          total_count
            [⟨"a", "A", "T", "M", some ⟨2022, 1, 10⟩, none⟩,
             ⟨"b", "B", "T", "F", some ⟨2023, 3, 1⟩, some ⟨2024, 6, 15⟩⟩]
            ⟨2024, 6, 15⟩ dpt)).sum :=
  claim5_amended_partition _ _ (by decide)

theorem dleb_predDay_false (d : Date) (hv : d.Valid) : dleb d (predDay d) = false := by
  obtain ⟨h1, h2, h3, h4, h5⟩ := hv
  unfold predDay
  split
  · simp only [dleb, Bool.or_eq_false_iff, Bool.and_eq_false_iff, decide_eq_false_iff_not]
    omega
  · split
    · simp only [dleb, Bool.or_eq_false_iff, Bool.and_eq_false_iff, decide_eq_false_iff_not]
      omega
    · simp only [dleb, Bool.or_eq_false_iff, Bool.and_eq_false_iff, decide_eq_false_iff_not]
      omega

/-- C7, counterexample: a record whose exit date (2023-01-01) precedes its
hire date (2024-01-10) fails the Inclusive-mode mask at a reference date
equal to its hire date, refuting the unconditional hire-date boundary
claim. -/
theorem claim7_counterexample :
    (⟨"x", "A", "T", "M", some ⟨2024, 1, 10⟩, some ⟨2023, 1, 1⟩⟩ : Row).hireDate
        = some ⟨2024, 1, 10⟩ ∧
    mask_current ⟨2024, 1, 10⟩
      (⟨"x", "A", "T", "M", some ⟨2024, 1, 10⟩, some ⟨2023, 1, 1⟩⟩ : Row) = false := by
  decide

/-- C7, amended: for a record with a defined, well-formed hire date whose
exit date (when present) is not before the hire date, the Inclusive-mode
mask is true at a reference date equal to the hire date and false at the
preceding day. -/
theorem claim7_amended_hire_boundary (r : Row) (h : Date) (hh : r.hireDate = some h)
    (hv : h.Valid) (hex : ∀ e, r.exitDate = some e → dleb h e = true) :
    mask_current h r = true ∧ mask_current (predDay h) r = false := by
  constructor
  · unfold mask_current
    rw [hh]
    cases hre : r.exitDate with
    | none => simp [dleb_refl]
    | some e => simp [dleb_refl, hex e hre]
  · unfold mask_current
    rw [hh]
    simp [dleb_predDay_false h hv]

/-- Witness for the amended C7 at a record hired 2024-01-10 with no exit. -/
theorem claim7_amended_hire_boundary_witness :
    mask_current ⟨2024, 1, 10⟩
        (⟨"w", "A", "T", "M", some ⟨2024, 1, 10⟩, none⟩ : Row) = true ∧
    mask_current (predDay ⟨2024, 1, 10⟩)
        (⟨"w", "A", "T", "M", some ⟨2024, 1, 10⟩, none⟩ : Row) = false :=
  claim7_amended_hire_boundary _ _ rfl (by decide) (fun e he => nomatch he)

theorem mem_df_current_hire {roster : List Row} {target : Date} {sel : String} {r : Row}
    (hr : r ∈ df_current roster target sel) : ∃ h, r.hireDate = some h := by
  have hmask : mask_current target r = true := by
    unfold df_current at hr
    split at hr
    · exact (List.of_mem_filter hr)
    · exact List.of_mem_filter (List.mem_of_mem_filter hr)
  cases hh : r.hireDate with
  | some h => exact ⟨h, rfl⟩
  | none =>
    rw [mask_current_of_absent_hire hh target] at hmask
    cases hmask

theorem avg_tenure_round_mean (roster : List Row) (target : Date) (sel : String)
    (h : df_current roster target sel ≠ []) :
    avg_tenure roster target sel = pyRound1 (avgTenureSpecMean roster target sel) := by
  rw [avg_tenure, if_neg h]
  congr 1
  unfold meanQ avgTenureSpecMean
  rw [show (df_current roster target sel).map (rowTenure target)
      = (df_current roster target sel).map
          (fun r => ((toOrd target : ℚ) - (toOrd (r.hireDate.getD target) : ℚ)) / 365) from by
    apply List.map_congr_left
    intro r hr
    obtain ⟨hd, hh⟩ := mem_df_current_hire hr
    rw [rowTenure, hh]
    simp only [Option.getD_some]
    push_cast
    ring]
  rw [List.length_map]

/-- C6, counterexample: a single active record hired 100 days before the
reference date has displayed average tenure 3/10 (the rounded value), but
exact mean tenure 100/365; the two differ, so the unrounded postcondition
fails on the code. -/
theorem claim6_counterexample :
    avg_tenure [⟨"d", "A", "T", "M", some ⟨2024, 3, 7⟩, none⟩] ⟨2024, 6, 15⟩ allDepts ≠
      avgTenureSpecMean [⟨"d", "A", "T", "M", some ⟨2024, 3, 7⟩, none⟩]
        ⟨2024, 6, 15⟩ allDepts := by
  have hdf : df_current [⟨"d", "A", "T", "M", some ⟨2024, 3, 7⟩, none⟩] ⟨2024, 6, 15⟩ allDepts
      = [⟨"d", "A", "T", "M", some ⟨2024, 3, 7⟩, none⟩] := by decide
  have h1 : toOrd ⟨2024, 6, 15⟩ = 739052 := by decide
  have h2 : toOrd ⟨2024, 3, 7⟩ = 738952 := by decide
  have eL : avg_tenure [⟨"d", "A", "T", "M", some ⟨2024, 3, 7⟩, none⟩]
      ⟨2024, 6, 15⟩ allDepts = 3/10 := by
    rw [avg_tenure, hdf]
    norm_num [meanQ, rowTenure, h1, h2, pyRound1]
  have eR : avgTenureSpecMean [⟨"d", "A", "T", "M", some ⟨2024, 3, 7⟩, none⟩]
      ⟨2024, 6, 15⟩ allDepts = 100/365 := by
    rw [avgTenureSpecMean, hdf]
    norm_num [h1, h2]
  rw [eL, eR]
  norm_num

/-- C6, amended: on a non-empty active set the displayed average tenure is
the arithmetic mean of `(referenceDate - hireDate).days / 365` rounded to
one decimal place (not the exact mean); on an empty active set it is 0. -/
theorem claim6_amended_avg_tenure (roster : List Row) (target : Date) (sel : String) :
    (df_current roster target sel ≠ [] →
      avg_tenure roster target sel = pyRound1 (avgTenureSpecMean roster target sel)) ∧
    (df_current roster target sel = [] → avg_tenure roster target sel = 0) := by
  constructor
  · exact avg_tenure_round_mean roster target sel
  · intro h
    rw [avg_tenure, if_pos h]

/-- Witness for the amended C6 on a one-record active roster. -/
theorem claim6_amended_avg_tenure_witness :
    avg_tenure [⟨"e", "A", "T", "M", some ⟨2022, 1, 10⟩, none⟩] ⟨2024, 6, 15⟩ allDepts =
      pyRound1 (avgTenureSpecMean [⟨"e", "A", "T", "M", some ⟨2022, 1, 10⟩, none⟩]
        ⟨2024, 6, 15⟩ allDepts) :=
  (claim6_amended_avg_tenure _ _ _).1 (by decide)

/-- C10. The reported average tenure is the rounded mean: whenever the
active set is non-empty, the displayed value equals the Python rounding to
one decimal of the exact mean of `(referenceDate - hireDate).days / 365`. -/
theorem claim10_avg_rounded (roster : List Row) (target : Date) (sel : String)
    (h : df_current roster target sel ≠ []) :
    avg_tenure roster target sel = pyRound1 (avgTenureSpecMean roster target sel) :=
  avg_tenure_round_mean roster target sel h

/-- Witness for C10 on a two-record active roster. -/
theorem claim10_avg_rounded_witness :
    avg_tenure
        [⟨"f", "A", "T", "M", some ⟨2023, 1, 1⟩, none⟩,
         ⟨"g", "B", "T", "F", some ⟨2024, 1, 1⟩, none⟩] ⟨2024, 6, 15⟩ allDepts =
      pyRound1 (avgTenureSpecMean
        [⟨"f", "A", "T", "M", some ⟨2023, 1, 1⟩, none⟩,
         ⟨"g", "B", "T", "F", some ⟨2024, 1, 1⟩, none⟩] ⟨2024, 6, 15⟩ allDepts) :=
  claim10_avg_rounded _ _ _ (by decide)

/-- C2, counterexample: the reference date 2022-05-10 is strictly earlier
than the configured series start 2023-01-31, yet the trend series is empty
(length 0, not 1): the month-end date range from 2022-05-10 to itself
contains no month-end anchor. -/
theorem claim2_counterexample :
    dltb ⟨2022, 5, 10⟩ start_trend_date = true ∧
    trend_data [] ⟨2022, 5, 10⟩ allDepts = [] := by
  decide

/-- C2, amended: for a valid reference date strictly earlier than the series
start 2023-01-31, the trend series is the single point at the reference date
when that date is a month-end, and is empty otherwise. -/
theorem claim2_amended_trend_degenerate (roster : List Row) (sel : String) (t : Date)
    (hv : t.Valid) (hlt : dltb t start_trend_date = true) :
    trend_data roster t sel =
      (if t.day = daysInMonth t.year t.month
       then [(t, trendCount roster sel t)] else []) := by
  obtain ⟨hy, hm1, hm2, hd1, hd2⟩ := hv
  unfold trend_data
  rw [hlt]
  simp only [if_true]
  unfold date_range
  have hn : monthIdx t + 1 - monthIdx t = 1 := by omega
  have hr1 : List.range 1 = [0] := by decide
  rw [hn, hr1]
  simp only [List.map_cons, List.map_nil]
  have hme : monthEndOfIdx (monthIdx t + 0)
      = ⟨t.year, t.month, daysInMonth t.year t.month⟩ := by
    unfold monthEndOfIdx monthIdx
    have e1 : (t.year * 12 + (t.month - 1) + 0) / 12 = t.year := by omega
    have e2 : (t.year * 12 + (t.month - 1) + 0) % 12 + 1 = t.month := by omega
    rw [e1, e2]
  rw [hme]
  by_cases hday : t.day = daysInMonth t.year t.month
  · rw [if_pos hday]
    have ht : (⟨t.year, t.month, daysInMonth t.year t.month⟩ : Date) = t := by
      rw [← hday]
    rw [ht, List.filter_cons_of_pos (by simp [dleb_refl])]
    simp
  · rw [if_neg hday]
    have hfalse : dleb ⟨t.year, t.month, daysInMonth t.year t.month⟩ t = false := by
      simp only [dleb, Bool.or_eq_false_iff, Bool.and_eq_false_iff,
        decide_eq_false_iff_not]
      omega
    rw [List.filter_cons_of_neg (by simp [hfalse])]
    simp

/-- Witness for the amended C2 at the month-end reference date 2022-05-31. -/
theorem claim2_amended_trend_degenerate_witness :
    trend_data [] ⟨2022, 5, 31⟩ allDepts =
      (if (⟨2022, 5, 31⟩ : Date).day = daysInMonth 2022 5
       then [(⟨2022, 5, 31⟩, trendCount [] allDepts ⟨2022, 5, 31⟩)] else []) :=
  claim2_amended_trend_degenerate [] allDepts ⟨2022, 5, 31⟩ (by decide) (by decide)
